import Mathlib

/-
Verification development for the MetroCuadrado scraper (src/scraper.py).

The browser-automation collaborator (Selenium), debug-artifact capture and
file output are external; they are modelled as oracles: a `DetailPage`
describes what the browser would deliver for one property URL, and a
`SearchEnv` describes what the browser delivers for each search-results
page.  Debug snapshots are modelled as the list of snapshot names the code
would request on each path.  All definitions follow the control flow of
src/scraper.py; line numbers in comments refer to that file.
-/

set_option autoImplicit false
set_option maxRecDepth 16384

namespace Scraper

/-! ### Python values

`PyVal` models the values produced by `json.loads` plus Python `None`,
as manipulated by `scrape_property_page` (scraper.py lines 84-124). -/

inductive PyVal where
  | none
  | bool (b : Bool)
  | int (n : Int)
  | str (s : String)
  | list (xs : List PyVal)
  | dict (kvs : List (String × PyVal))

/-- Python truthiness (`if not listing:` at line 90, `if img.get('url')` at
line 98): `None`, `False`, `0`, empty strings/lists/dicts are falsy. -/
def PyVal.truthy : PyVal → Bool
  | .none => false
  | .bool b => b
  | .int n => n != 0
  | .str s => !s.isEmpty
  | .list xs => !xs.isEmpty
  | .dict kvs => !kvs.isEmpty

/-- First binding of key `k`, or the default `d` (Python `dict.get(k, d)`). -/
def lookupD (kvs : List (String × PyVal)) (k : String) (d : PyVal) : PyVal :=
  (kvs.lookup k).getD d

/-- Python `v.get(k, d)`: succeeds only on dicts; on any other value an
`AttributeError` is raised, modelled as `Option.none`. -/
def PyVal.get? : PyVal → String → PyVal → Option PyVal
  | .dict kvs, k, d => some (lookupD kvs k d)
  | _, _, _ => Option.none

/-- Python iteration (`for img in ...`, `str.join`): strings iterate to
one-character strings, dicts to their keys; `None`/bools/ints raise
`TypeError`, modelled as `Option.none`. -/
def pyIter : PyVal → Option (List PyVal)
  | .str s => some (s.data.map fun c => .str (String.singleton c))
  | .list xs => some xs
  | .dict kvs => some (kvs.map fun kv => .str kv.1)
  | _ => Option.none

/-- Extract the underlying string; non-strings raise (`Option.none`). -/
def strOfVal : PyVal → Option String
  | .str s => some s
  | _ => Option.none

/-- All elements must be strings (as required by `str.join`). -/
def allStrs : List PyVal → Option (List String)
  | [] => some []
  | v :: vs => do
    let s ← strOfVal v
    let tl ← allStrs vs
    return s :: tl

/-- Python `sep.join(v)` for an arbitrary iterable `v`
(`", ".join(listing.get('features', []))`, line 117). -/
def pyJoin (sep : String) (v : PyVal) : Option String := do
  let xs ← pyIter v
  let ss ← allStrs xs
  return String.intercalate sep ss

/-- Python `sep.join(xs)` for a list built by the code itself
(`"; ".join(images)`, line 120). -/
def pyJoinList (sep : String) (xs : List PyVal) : Option String :=
  (allStrs xs).map (String.intercalate sep)

/-- The image-URL list comprehension at line 98:
`[img.get('url', '') for img in listing.get('images', []) if img.get('url')]`.
Each `img` must be a dict, otherwise `.get` raises. -/
def extractImages : List PyVal → Option (List PyVal)
  | [] => some []
  | img :: rest => do
    let cond ← img.get? "url" PyVal.none
    if cond.truthy then
      let u ← img.get? "url" (.str "")
      let tl ← extractImages rest
      return u :: tl
    else
      extractImages rest

/-- Replace every newline by a space (Python `.replace('\n', ' ')` acting on
the already-truncated slice, line 116).  Only `'\n'` is replaced. -/
def collapseLF (l : List Char) : List Char :=
  l.map fun c => if c = '\n' then ' ' else c

/-- Line 116: `listing.get('description', '')[:500].replace('\n', ' ') + "..."`.
Slicing then `.replace` then string concatenation; any non-string value
raises (`Option.none`). -/
def pyDescription : PyVal → Option String
  | .str s => some (String.mk (collapseLF (s.data.take 500)) ++ "...")
  | _ => Option.none

/-! ### PropertyRecord

One row of the output dataset, mirroring the dict literal at lines 101-124.
Fields produced by a plain `.get` keep the raw `PyVal`; fields the code
post-processes into Python strings are `String`. -/

structure PropertyRecord where
  url : String
  title : PyVal
  price : PyVal
  currency : PyVal
  location : PyVal
  neighborhood : PyVal
  city : PyVal
  property_type : PyVal
  area : PyVal
  rooms : PyVal
  bathrooms : PyVal
  parking : PyVal
  stratum : PyVal
  status : PyVal
  description : String
  features : String
  broker : PyVal
  broker_phone : PyVal
  images : String
  virtual_tour : PyVal
  property_id : PyVal
  scraped_at : String

/-! The record construction at lines 96-124 is split here into one helper
per group of fields; in the Python source all of these effects run inside
one expression, and any raised exception reaches the same handler
(line 126), so the split does not change the observable `Option` result. -/

/-- Line 98 + line 120: build `"; ".join([img.get('url', '') for img in
listing.get('images', []) if img.get('url')])`. -/
def imagesStrOf (listing : PyVal) : Option String := do
  let imagesObj ← listing.get? "images" (.list [])
  let imgsL ← pyIter imagesObj
  let imageUrls ← extractImages imgsL
  pyJoinList "; " imageUrls

/-- Lines 104-105: `listing.get('price', {}).get('value', '')` and
`listing.get('price', {}).get('currency', 'COP')`. -/
def priceOf (listing : PyVal) : Option (PyVal × PyVal) := do
  let priceObj ← listing.get? "price" (.dict [])
  let priceVal ← priceObj.get? "value" (.str "")
  let priceObj2 ← listing.get? "price" (.dict [])
  let currency ← priceObj2.get? "currency" (.str "COP")
  return (priceVal, currency)

/-- Line 96 and lines 106-108: `location = listing.get('location', {})`,
then `formattedAddress`, `neighborhood.name`, `city.name`. -/
def locationFieldsOf (listing : PyVal) : Option (PyVal × PyVal × PyVal) := do
  let location ← listing.get? "location" (.dict [])
  let formattedAddress ← location.get? "formattedAddress" (.str "")
  let nbObj ← location.get? "neighborhood" (.dict [])
  let nbName ← nbObj.get? "name" (.str "")
  let cityObj ← location.get? "city" (.dict [])
  let cityName ← cityObj.get? "name" (.str "")
  return (formattedAddress, nbName, cityName)

/-- The seven single-`get` fields of lines 103 and 109-115. -/
structure PlainFields where
  title : PyVal
  property_type : PyVal
  area : PyVal
  rooms : PyVal
  bathrooms : PyVal
  parking : PyVal
  stratum : PyVal
  status : PyVal

/-- Lines 103, 109-115: the fields read by a single `listing.get(key, '')`. -/
def plainFieldsOf (listing : PyVal) : Option PlainFields := do
  let title ← listing.get? "title" (.str "")
  let propertyType ← listing.get? "propertyType" (.str "")
  let area ← listing.get? "area" (.str "")
  let rooms ← listing.get? "rooms" (.str "")
  let parking ← listing.get? "parking" (.str "")
  let stratum ← listing.get? "stratum" (.str "")
  let status ← listing.get? "status" (.str "")
  let bathrooms ← listing.get? "bathrooms" (.str "")
  return ⟨title, propertyType, area, rooms, bathrooms, parking, stratum, status⟩

/-- Line 116: fetch and post-process the description. -/
def descriptionOf (listing : PyVal) : Option String := do
  let descVal ← listing.get? "description" (.str "")
  pyDescription descVal

/-- Line 117: fetch and join the features. -/
def featuresOf (listing : PyVal) : Option String := do
  let featuresVal ← listing.get? "features" (.list [])
  pyJoin ", " featuresVal

/-- Line 97 and lines 118-119: `broker = listing.get('broker', {})`, then
`broker.get('name', '')` and `broker.get('phone', '')`. -/
def brokerFieldsOf (listing : PyVal) : Option (PyVal × PyVal) := do
  let broker ← listing.get? "broker" (.dict [])
  let brokerName ← broker.get? "name" (.str "")
  let brokerPhone ← broker.get? "phone" (.str "")
  return (brokerName, brokerPhone)

/-- Lines 121-122: `virtualTourUrl` and `id`. -/
def tailFieldsOf (listing : PyVal) : Option (PyVal × PyVal) := do
  let virtualTour ← listing.get? "virtualTourUrl" (.str "")
  let propertyId ← listing.get? "id" (.str "")
  return (virtualTour, propertyId)

/-- The dict literal at lines 101-124, assembled from the already-fetched
field groups. -/
def mkRecord (url ts imagesStr : String) (pc : PyVal × PyVal)
    (lf : PyVal × PyVal × PyVal) (pf : PlainFields)
    (description features : String) (bf tf : PyVal × PyVal) : PropertyRecord :=
  { url := url, title := pf.title, price := pc.1, currency := pc.2,
    location := lf.1, neighborhood := lf.2.1, city := lf.2.2,
    property_type := pf.property_type, area := pf.area, rooms := pf.rooms,
    bathrooms := pf.bathrooms, parking := pf.parking, stratum := pf.stratum,
    status := pf.status, description := description, features := features,
    broker := bf.1, broker_phone := bf.2, images := imagesStr,
    virtual_tour := tf.1, property_id := tf.2, scraped_at := ts }

/-- Lines 96-124: build the record from the (truthy) `listing` value.
Every step that can raise in Python is an `Option` bind; a raised
exception is caught by the handler at line 126 (see `scrapeAfterNav`). -/
def buildRecord (listing : PyVal) (url ts : String) : Option PropertyRecord := do
  let imagesStr ← imagesStrOf listing
  let pc ← priceOf listing
  let lf ← locationFieldsOf listing
  let pf ← plainFieldsOf listing
  let description ← descriptionOf listing
  let features ← featuresOf listing
  let bf ← brokerFieldsOf listing
  let tf ← tailFieldsOf listing
  return mkRecord url ts imagesStr pc lf pf description features bf tf

/-! ### scrape_property_page (lines 65-129) -/

/-- What the browser delivers for one property URL. -/
structure DetailPage where
  /-- `driver.get(url)` at line 68 succeeds.  This call sits OUTSIDE the
  `try` block starting at line 70. -/
  navOk : Bool
  /-- One of the two page-ready waits at lines 72-80 succeeds. -/
  pageReady : Bool
  /-- The `__NEXT_DATA__` script element exists (line 83). -/
  hasNextData : Bool
  /-- `some v` when `json.loads` succeeds with value `v`; `Option.none`
  when the text fails to parse (line 84). -/
  payload : Option PyVal

/-- Lines 87-88: `json_data.get('props', {}).get('pageProps', {}).get('listing', {})`. -/
def listingOf (j : PyVal) : Option PyVal := do
  let props ← j.get? "props" (.dict [])
  let pageProps ← props.get? "pageProps" (.dict [])
  pageProps.get? "listing" (.dict [])

/-- The body of the `try` at lines 70-129, entered after navigation
succeeded.  Returns the value returned by the Python function together with
the list of debug-snapshot names requested on that path.  Every raised
exception reaches the handler at line 126 (`take_screenshot("property_error")`,
return `None`); the empty/absent-listing branch at lines 90-93 takes the
`no_listing_data` snapshot instead. -/
def scrapeAfterNav (pg : DetailPage) (url ts : String) :
    Option PropertyRecord × List String :=
  if pg.pageReady then
    if pg.hasNextData then
      match pg.payload with
      | some j =>
        match listingOf j with
        | some listing =>
          if listing.truthy then
            match buildRecord listing url ts with
            | some r => (some r, [])
            | Option.none => (Option.none, ["property_error"])
          else (Option.none, ["no_listing_data"])   -- lines 90-93
        | Option.none => (Option.none, ["property_error"])
      | Option.none => (Option.none, ["property_error"])
    else (Option.none, ["property_error"])
  else (Option.none, ["property_error"])

/-- `scrape_property_page(driver, url)` (lines 65-129).  `driver.get(url)`
at line 68 runs before the `try`: if navigation raises, the exception
escapes the function, modelled as `Except.error ()`. -/
def scrape_property_page (pg : DetailPage) (url ts : String) :
    Except Unit (Option PropertyRecord × List String) :=
  if pg.navOk then
    Except.ok (scrapeAfterNav pg url ts)
  else
    Except.error ()

/-! ### scrape_search_results (lines 132-281)

Configuration constants (lines 15-17). -/

def MAX_PAGES : Nat := 3

def OUTPUT_FILE : String := "metrocuadrado_properties.csv"

/-- One listing card found by a detection method.  `href` is `some h` when
an anchor with attribute value `h` is found inside the card; `Option.none`
when no anchor is found (the per-card exception handler at lines 220-222
logs and continues) or `get_attribute` returns `None`. -/
structure Card where
  href : Option String
deriving DecidableEq

/-- Outcome of the next-page controls for one search-results page. -/
structure NextAdvance where
  /-- One of the three locator rules at lines 246-252 finds the control;
  when all three raise, the handler at lines 269-272 breaks the loop. -/
  found : Bool
  /-- Scrolling + clicking (lines 255-256) and the wait for a new listings
  container (lines 259-262) succeed; a timeout or click failure reaches
  the same handler at lines 269-272. -/
  waitOk : Bool

/-- What the browser delivers on one search-results page. -/
structure SearchPage where
  /-- Line 175: `div[data-testid='m2-card-listings-container']`. -/
  cardsTestid : List Card
  /-- Line 183: `div.m2-card-listing`. -/
  cardsClass : List Card
  /-- Line 191: `div[class*='card']`. -/
  cardsGeneric : List Card
  next : NextAdvance

/-- The oracle for one whole run: the search page shown on iteration `n`
(1-indexed), the detail page behind each URL, and the `time.strftime`
timestamp (line 123). -/
structure SearchEnv where
  pages : Nat → SearchPage
  detail : String → DetailPage
  ts : String

/-- Whether `pat` occurs as a contiguous substring (Python `pat in s`). -/
def listContains (pat : List Char) : List Char → Bool
  | [] => pat.isEmpty
  | c :: cs => List.isPrefixOf pat (c :: cs) || listContains pat cs

/-- Python `pat in s` on strings. -/
def strContains (s pat : String) : Bool :=
  listContains pat.data s.data

/-- Line 218: `"/inmueble/" in href or "/proyecto/" in href`. -/
def accepted (href : String) : Bool :=
  strContains href "/inmueble/" || strContains href "/proyecto/"

/-- Lines 169-194: the three card-detection methods, tried in order;
each later method runs only when the previous ones produced no cards. -/
def selectCards (p : SearchPage) : List Card :=
  if !p.cardsTestid.isEmpty then p.cardsTestid
  else if !p.cardsClass.isEmpty then p.cardsClass
  else p.cardsGeneric

/-- Lines 207-222: collect `href` values of the anchors inside each card,
keeping those that are truthy and contain an accepted path pattern;
cards whose link extraction raises are skipped. -/
def extractLinks (cards : List Card) : List String :=
  cards.filterMap fun c =>
    match c.href with
    | some h => if !h.isEmpty && accepted h then some h else Option.none
    | Option.none => Option.none

/-- Lines 169-225 for one page: detect cards, extract links, and
deduplicate (line 225, `list(set(links))`; the iteration order of a Python
set is unspecified, modelled by `List.dedup`). -/
def pageLinks (p : SearchPage) : List String :=
  (extractLinks (selectCards p)).dedup

/-- Result of the per-property loop at lines 234-239 over one page's links. -/
structure LinkBatch where
  /-- Records appended at lines 237-238, in processing order. -/
  records : List PropertyRecord
  /-- Links for which `scrape_property_page` returned `None`. -/
  failures : Nat
  /-- True when `scrape_property_page` raised (navigation failure at line
  68): the loop stops, the page-level handler at lines 276-279 runs, and
  the remaining links are not processed. -/
  aborted : Bool

/-- Lines 234-239: process each link in order with `scrape_property_page`;
`None` results are skipped, a raised exception aborts the rest of the
page. -/
def processLinks (env : SearchEnv) : List String → LinkBatch
  | [] => ⟨[], 0, false⟩
  | url :: rest =>
    match scrape_property_page (env.detail url) url env.ts with
    | Except.error _ => ⟨[], 0, true⟩
    | Except.ok (some r, _) =>
      let b := processLinks env rest
      ⟨r :: b.records, b.failures, b.aborted⟩
    | Except.ok (Option.none, _) =>
      let b := processLinks env rest
      ⟨b.records, b.failures + 1, b.aborted⟩

/-- Aggregate statistics of one crawl.  `records` is the `properties` list
of the source; the three counters are instrumentation recording how many
pages the `while` loop processed, how many deduplicated links discovery
produced, and how many per-property extractions returned `None`. -/
structure CrawlStats where
  records : List PropertyRecord
  pagesVisited : Nat
  linksDiscovered : Nat
  failures : Nat

/-- One iteration of the `while page <= MAX_PAGES` body (lines 157-279)
for page number `page`: returns this iteration's contribution and whether
the loop continues with `page + 1`.  The loop continues only when cards
and links were found, the extraction loop did not abort, `page < m`
(line 242; at `page == m` the `else: break` at lines 273-274 runs), a
next-page control was found and the post-click wait succeeded. -/
def pageStep (env : SearchEnv) (m page : Nat) : CrawlStats × Bool :=
  let p := env.pages page
  let cards := selectCards p
  if cards.isEmpty then (⟨[], 1, 0, 0⟩, false)       -- lines 197-204: break
  else
    let links := (extractLinks cards).dedup
    if links.isEmpty then (⟨[], 1, 0, 0⟩, false)     -- lines 228-231: break
    else
      let b := processLinks env links
      if b.aborted then                               -- lines 276-279: break
        (⟨b.records, 1, links.length, b.failures⟩, false)
      else
        (⟨b.records, 1, links.length, b.failures⟩,
          decide (page < m) && p.next.found && p.next.waitOk)

/-- Concatenate the contribution of one page with the rest of the walk. -/
def addStats (a b : CrawlStats) : CrawlStats :=
  ⟨a.records ++ b.records, a.pagesVisited + b.pagesVisited,
    a.linksDiscovered + b.linksDiscovered, a.failures + b.failures⟩

/-- The `while page <= MAX_PAGES` loop (lines 156-279), starting at page
number `page`.  `fuel` is a structural bound on the number of remaining
iterations; since every continuing iteration increments `page`, any
`fuel ≥ m + 1 - page` gives the loop's exact behaviour
(`crawlAux_fuel_irrelevant` below). -/
def crawlAux (env : SearchEnv) (m : Nat) : Nat → Nat → CrawlStats
  | 0, _ => ⟨[], 0, 0, 0⟩
  | fuel + 1, page =>
    if page ≤ m then
      if (pageStep env m page).2 then
        addStats (pageStep env m page).1 (crawlAux env m fuel (page + 1))
      else (pageStep env m page).1
    else ⟨[], 0, 0, 0⟩

/-- The whole walk from page 1 with limit `m`. -/
def crawl (env : SearchEnv) (m : Nat) : CrawlStats :=
  crawlAux env m (m + 1) 1

/-- `scrape_search_results(driver)` (lines 132-281): the returned
`properties` list. -/
def scrape_search_results (env : SearchEnv) : List PropertyRecord :=
  (crawl env MAX_PAGES).records

/-! ### main (lines 284-307) -/

/-- The observable outcome of `main`: the rows written to the CSV file
(empty when `results` is falsy and nothing is written, lines 292-300) and
the final status line printed. -/
structure RunOutput where
  csvRows : List PropertyRecord
  finalMessage : String

/-- `main()` (lines 284-307): scrape, then either write all records and
report how many were saved, or report that no data was scraped. -/
def main (env : SearchEnv) : RunOutput :=
  let results := scrape_search_results env
  if results.isEmpty then
    ⟨[], "No data scraped"⟩
  else
    ⟨results,
      "Success! Saved " ++ toString results.length ++ " properties to " ++ OUTPUT_FILE⟩

/-! ### Specification-side predicates -/

/-- A page on which the walk must stop: discovery yields no cards, or no
valid links, or none of the three next-page locator rules finds a
control. -/
def stopsAt (env : SearchEnv) (q : Nat) : Prop :=
  selectCards (env.pages q) = [] ∨ pageLinks (env.pages q) = [] ∨
    (env.pages q).next.found = false

/-- Line-break characters: the line boundaries recognised by Python
`str.splitlines` (LF, CR, vertical tab, form feed, the three information
separators, NEL, LINE SEPARATOR, PARAGRAPH SEPARATOR). -/
def isLineBreak (c : Char) : Bool :=
  c = '\n' || c = '\x0d' || c = '\x0b' || c = '\x0c' || c = '\x1c' ||
    c = '\x1d' || c = '\x1e' || c = '\x85' || c = '\u2028' || c = '\u2029'

/-! ### Concrete sample data

Small concrete pages and environments used to evaluate the definitions. -/

/-- A truthy listing with a title and a price. -/
def goodListing : PyVal :=
  .dict [("title", .str "Casa"), ("price", .dict [("value", .int 100)])]

def goodPayload : PyVal :=
  .dict [("props", .dict [("pageProps", .dict [("listing", goodListing)])])]

/-- A detail page whose extraction succeeds. -/
def goodDetail : DetailPage := ⟨true, true, true, some goodPayload⟩

/-- A detail page whose `__NEXT_DATA__` text fails to parse as JSON. -/
def badParseDetail : DetailPage := ⟨true, true, true, Option.none⟩

/-- A detail page for which `driver.get(url)` (line 68) raises. -/
def navFailDetail : DetailPage := ⟨false, true, true, some goodPayload⟩

def urlA : String := "https://www.metrocuadrado.com/inmueble/1"

def urlB : String := "https://www.metrocuadrado.com/inmueble/2"

def cardA : Card := ⟨some urlA⟩

def cardB : Card := ⟨some urlB⟩

def tsW : String := "2025-01-01 00:00:00"

/-- One card, found by the first strategy; no next-page control. -/
def pageA : SearchPage := ⟨[cardA], [], [], ⟨false, false⟩⟩

def envA : SearchEnv := ⟨fun _ => pageA, fun _ => goodDetail, tsW⟩

/-- Two cards; no next-page control. -/
def pageB : SearchPage := ⟨[cardA, cardB], [], [], ⟨false, false⟩⟩

/-- Like `envA` plus a second link whose payload fails to parse. -/
def envB : SearchEnv :=
  ⟨fun _ => pageB, fun u => if u = urlA then goodDetail else badParseDetail, tsW⟩

/-- First link's navigation raises; the second would succeed. -/
def envNav : SearchEnv :=
  ⟨fun _ => pageB, fun u => if u = urlA then navFailDetail else goodDetail, tsW⟩

/-- Cards only via the class-based strategy. -/
def pageClassOnly : SearchPage := ⟨[], [cardA], [], ⟨false, false⟩⟩

/-! ### Unfolding lemmas for the extractor -/

theorem buildRecord_def (listing : PyVal) (url ts : String) :
    buildRecord listing url ts =
      Option.bind (imagesStrOf listing) (fun imagesStr =>
      Option.bind (priceOf listing) (fun pc =>
      Option.bind (locationFieldsOf listing) (fun lf =>
      Option.bind (plainFieldsOf listing) (fun pf =>
      Option.bind (descriptionOf listing) (fun description =>
      Option.bind (featuresOf listing) (fun features =>
      Option.bind (brokerFieldsOf listing) (fun bf =>
      Option.bind (tailFieldsOf listing) (fun tf =>
      some (mkRecord url ts imagesStr pc lf pf description features bf tf))))))))) := rfl

theorem get?_dict (kvs : List (String × PyVal)) (k : String) (d : PyVal) :
    (PyVal.dict kvs).get? k d = some (lookupD kvs k d) := rfl

theorem lookupD_of_absent (kvs : List (String × PyVal)) (k : String) (d : PyVal)
    (h : kvs.lookup k = Option.none) : lookupD kvs k d = d := by
  simp [lookupD, h]

theorem plainFieldsOf_dict (kvs : List (String × PyVal)) :
    plainFieldsOf (.dict kvs) = some ⟨lookupD kvs "title" (.str ""),
      lookupD kvs "propertyType" (.str ""), lookupD kvs "area" (.str ""),
      lookupD kvs "rooms" (.str ""), lookupD kvs "bathrooms" (.str ""),
      lookupD kvs "parking" (.str ""), lookupD kvs "stratum" (.str ""),
      lookupD kvs "status" (.str "")⟩ := rfl

theorem tailFieldsOf_dict (kvs : List (String × PyVal)) :
    tailFieldsOf (.dict kvs) = some (lookupD kvs "virtualTourUrl" (.str ""),
      lookupD kvs "id" (.str "")) := rfl

theorem descriptionOf_dict (kvs : List (String × PyVal)) :
    descriptionOf (.dict kvs) = pyDescription (lookupD kvs "description" (.str "")) := rfl

theorem featuresOf_dict (kvs : List (String × PyVal)) :
    featuresOf (.dict kvs) = pyJoin ", " (lookupD kvs "features" (.list [])) := rfl

theorem priceOf_dict_def (kvs : List (String × PyVal)) :
    priceOf (.dict kvs) =
      Option.bind ((lookupD kvs "price" (.dict [])).get? "value" (.str "")) (fun v =>
      Option.bind ((lookupD kvs "price" (.dict [])).get? "currency" (.str "COP")) (fun c =>
      some (v, c))) := rfl

theorem locationFieldsOf_dict_def (kvs : List (String × PyVal)) :
    locationFieldsOf (.dict kvs) =
      Option.bind ((lookupD kvs "location" (.dict [])).get? "formattedAddress" (.str "")) (fun fa =>
      Option.bind ((lookupD kvs "location" (.dict [])).get? "neighborhood" (.dict [])) (fun nbObj =>
      Option.bind (nbObj.get? "name" (.str "")) (fun nbName =>
      Option.bind ((lookupD kvs "location" (.dict [])).get? "city" (.dict [])) (fun cityObj =>
      Option.bind (cityObj.get? "name" (.str "")) (fun cityName =>
      some (fa, nbName, cityName)))))) := rfl

theorem brokerFieldsOf_dict_def (kvs : List (String × PyVal)) :
    brokerFieldsOf (.dict kvs) =
      Option.bind ((lookupD kvs "broker" (.dict [])).get? "name" (.str "")) (fun n =>
      Option.bind ((lookupD kvs "broker" (.dict [])).get? "phone" (.str "")) (fun p =>
      some (n, p))) := rfl

theorem imagesStrOf_dict_def (kvs : List (String × PyVal)) :
    imagesStrOf (.dict kvs) =
      Option.bind (pyIter (lookupD kvs "images" (.list []))) (fun imgsL =>
      Option.bind (extractImages imgsL) (fun imageUrls =>
      pyJoinList "; " imageUrls)) := rfl

/-- Inversion: a record successfully built from a dict `listing` takes each
field from the corresponding key (or its default), exactly as the dict
literal at lines 101-124 prescribes. -/
theorem buildRecord_dict_inv (kvs : List (String × PyVal)) (url ts : String)
    (r : PropertyRecord) (h : buildRecord (.dict kvs) url ts = some r) :
    r.url = url ∧ r.scraped_at = ts ∧
    r.title = lookupD kvs "title" (.str "") ∧
    r.property_type = lookupD kvs "propertyType" (.str "") ∧
    r.area = lookupD kvs "area" (.str "") ∧
    r.rooms = lookupD kvs "rooms" (.str "") ∧
    r.bathrooms = lookupD kvs "bathrooms" (.str "") ∧
    r.parking = lookupD kvs "parking" (.str "") ∧
    r.stratum = lookupD kvs "stratum" (.str "") ∧
    r.status = lookupD kvs "status" (.str "") ∧
    r.virtual_tour = lookupD kvs "virtualTourUrl" (.str "") ∧
    r.property_id = lookupD kvs "id" (.str "") ∧
    pyDescription (lookupD kvs "description" (.str "")) = some r.description ∧
    pyJoin ", " (lookupD kvs "features" (.list [])) = some r.features ∧
    priceOf (.dict kvs) = some (r.price, r.currency) ∧
    locationFieldsOf (.dict kvs) = some (r.location, r.neighborhood, r.city) ∧
    brokerFieldsOf (.dict kvs) = some (r.broker, r.broker_phone) ∧
    imagesStrOf (.dict kvs) = some r.images := by
  rw [buildRecord_def] at h
  simp only [Option.bind_eq_some, Option.some.injEq] at h
  obtain ⟨imagesStr, hImg, pc, hPc, lf, hLf, pf, hPf, dsc, hDesc, fts, hFeat,
    bf, hBf, tf, hTf, hr⟩ := h
  subst hr
  obtain rfl : pf = ⟨lookupD kvs "title" (.str ""),
      lookupD kvs "propertyType" (.str ""), lookupD kvs "area" (.str ""),
      lookupD kvs "rooms" (.str ""), lookupD kvs "bathrooms" (.str ""),
      lookupD kvs "parking" (.str ""), lookupD kvs "stratum" (.str ""),
      lookupD kvs "status" (.str "")⟩ := by
    rw [plainFieldsOf_dict] at hPf
    exact (Option.some.inj hPf).symm
  obtain rfl : tf = (lookupD kvs "virtualTourUrl" (.str ""),
      lookupD kvs "id" (.str "")) := by
    rw [tailFieldsOf_dict] at hTf
    exact (Option.some.inj hTf).symm
  rw [descriptionOf_dict] at hDesc
  rw [featuresOf_dict] at hFeat
  refine ⟨rfl, rfl, rfl, rfl, rfl, rfl, rfl, rfl, rfl, rfl, rfl, rfl,
    hDesc, hFeat, ?_, ?_, ?_, ?_⟩
  · rw [hPc]; simp [mkRecord]
  · rw [hLf]; simp [mkRecord]
  · rw [hBf]; simp [mkRecord]
  · rw [hImg]; simp [mkRecord]

/-- A successful `buildRecord` forces the listing to be a dict: the very
first `.get` at line 96 raises on any other value. -/
theorem buildRecord_some_dict (listing : PyVal) (url ts : String)
    (r : PropertyRecord) (h : buildRecord listing url ts = some r) :
    ∃ kvs, listing = PyVal.dict kvs := by
  cases listing with
  | dict kvs => exact ⟨kvs, rfl⟩
  | none => rw [buildRecord_def] at h; simp [imagesStrOf, PyVal.get?] at h
  | bool b => rw [buildRecord_def] at h; simp [imagesStrOf, PyVal.get?] at h
  | int n => rw [buildRecord_def] at h; simp [imagesStrOf, PyVal.get?] at h
  | str s => rw [buildRecord_def] at h; simp [imagesStrOf, PyVal.get?] at h
  | list xs => rw [buildRecord_def] at h; simp [imagesStrOf, PyVal.get?] at h

/-! ### Case analysis of scrape_property_page -/

/-- After a successful navigation, extraction ends in exactly one of three
ways: a record with no snapshot, the generic failure with a
`property_error` snapshot, or the empty-listing failure with a
`no_listing_data` snapshot. -/
theorem scrapeAfterNav_cases (pg : DetailPage) (url ts : String) :
    (∃ r, scrapeAfterNav pg url ts = (some r, [])) ∨
    scrapeAfterNav pg url ts = (Option.none, ["property_error"]) ∨
    scrapeAfterNav pg url ts = (Option.none, ["no_listing_data"]) := by
  unfold scrapeAfterNav
  cases h1 : pg.pageReady
  · simp [h1]
  · cases hh : pg.hasNextData
    · simp [h1, hh]
    · rcases hp : pg.payload with _ | j
      · simp [h1, hh, hp]
      · rcases hl : listingOf j with _ | listing
        · simp [h1, hh, hp, hl]
        · cases ht : listing.truthy
          · simp [h1, hh, hp, hl, ht]
          · rcases hb : buildRecord listing url ts with _ | r
            · simp [h1, hh, hp, hl, ht, hb]
            · exact Or.inl ⟨r, by simp [h1, hh, hp, hl, ht, hb]⟩

/-- Every failure of the contained extraction requests a debug snapshot. -/
theorem scrapeAfterNav_fail_snapshot (pg : DetailPage) (url ts : String)
    (h : (scrapeAfterNav pg url ts).1 = Option.none) :
    (scrapeAfterNav pg url ts).2 = ["property_error"] ∨
    (scrapeAfterNav pg url ts).2 = ["no_listing_data"] := by
  rcases scrapeAfterNav_cases pg url ts with ⟨r, hr⟩ | hr | hr
  · rw [hr] at h; simp at h
  · exact Or.inl (by rw [hr])
  · exact Or.inr (by rw [hr])

/-- Inversion of a successful extraction: navigation succeeded, the payload
parsed, the nested listing was present and truthy, and the record was built
from it with no snapshot taken. -/
theorem scrape_ok_record_inv (pg : DetailPage) (url ts : String)
    (r : PropertyRecord) (snaps : List String)
    (h : scrape_property_page pg url ts = Except.ok (some r, snaps)) :
    pg.navOk = true ∧ ∃ j listing, pg.payload = some j ∧
      listingOf j = some listing ∧ listing.truthy = true ∧
      buildRecord listing url ts = some r ∧ snaps = [] := by
  unfold scrape_property_page at h
  cases hn : pg.navOk
  · rw [hn] at h; simp at h
  · rw [hn] at h
    simp only [if_true] at h
    have hs : scrapeAfterNav pg url ts = (some r, snaps) := by
      injection h
    refine ⟨rfl, ?_⟩
    unfold scrapeAfterNav at hs
    cases h1 : pg.pageReady
    · simp [h1] at hs
    · cases hh : pg.hasNextData
      · simp [h1, hh] at hs
      · rcases hp : pg.payload with _ | j
        · simp [h1, hh, hp] at hs
        · rcases hl : listingOf j with _ | listing
          · simp [h1, hh, hp, hl] at hs
          · cases ht : listing.truthy
            · simp [h1, hh, hp, hl, ht] at hs
            · rcases hb : buildRecord listing url ts with _ | r'
              · simp [h1, hh, hp, hl, ht, hb] at hs
              · simp only [h1, hh, hp, hl, ht, hb, if_true, Prod.mk.injEq,
                  Option.some.injEq] at hs
                obtain ⟨rfl, rfl⟩ := hs
                exact ⟨j, listing, rfl, hl, ht, hb, rfl⟩

/-! ### Lemmas about the pagination loop -/

theorem pageStep_visited (env : SearchEnv) (m page : Nat) :
    (pageStep env m page).1.pagesVisited = 1 := by
  by_cases h1 : (selectCards (env.pages page)).isEmpty
  · simp [pageStep, h1]
  · by_cases h2 : ((extractLinks (selectCards (env.pages page))).dedup).isEmpty
    · simp [pageStep, h1, h2]
    · by_cases h3 : (processLinks env ((extractLinks (selectCards (env.pages page))).dedup)).aborted
      · simp [pageStep, h1, h2, h3]
      · simp [pageStep, h1, h2, h3]

/-- The loop continues past a page only when that page produced cards and
links, its extraction loop did not abort, the page limit was not reached,
and the next-page control was found and worked. -/
theorem pageStep_cont_inv (env : SearchEnv) (m page : Nat)
    (h : (pageStep env m page).2 = true) :
    selectCards (env.pages page) ≠ [] ∧
    pageLinks (env.pages page) ≠ [] ∧
    (processLinks env (pageLinks (env.pages page))).aborted = false ∧
    page < m ∧ (env.pages page).next.found = true ∧
    (env.pages page).next.waitOk = true := by
  unfold pageStep at h
  by_cases h1 : (selectCards (env.pages page)).isEmpty
  · simp [h1] at h
  · by_cases h2 : ((extractLinks (selectCards (env.pages page))).dedup).isEmpty
    · simp [h1, h2] at h
    · by_cases h3 : (processLinks env ((extractLinks (selectCards (env.pages page))).dedup)).aborted
      · simp [h1, h2, h3] at h
      · simp only [h1, h2, h3, if_false, Bool.false_eq_true, if_neg, Bool.and_eq_true,
          decide_eq_true_eq] at h
        have e1 : selectCards (env.pages page) ≠ [] := by
          simpa [List.isEmpty_iff] using h1
        have e2 : pageLinks (env.pages page) ≠ [] := by
          simpa [pageLinks, List.isEmpty_iff] using h2
        have e3 : (processLinks env (pageLinks (env.pages page))).aborted = false := by
          simpa [pageLinks] using h3
        exact ⟨e1, e2, e3, h.1.1, h.1.2, h.2⟩

/-- Unfolding of one executed loop iteration. -/
theorem crawlAux_succ (env : SearchEnv) (m fuel page : Nat) (hp : page ≤ m) :
    crawlAux env m (fuel + 1) page =
      if (pageStep env m page).2 then
        addStats (pageStep env m page).1 (crawlAux env m fuel (page + 1))
      else (pageStep env m page).1 := by
  conv_lhs => rw [crawlAux]
  rw [if_pos hp]

/-- The loop body does not run past the `while` condition. -/
theorem crawlAux_gt (env : SearchEnv) (m fuel page : Nat) (hp : ¬ page ≤ m) :
    crawlAux env m (fuel + 1) page = ⟨[], 0, 0, 0⟩ := by
  conv_lhs => rw [crawlAux]
  rw [if_neg hp]

theorem crawlAux_visited_le (env : SearchEnv) (m : Nat) :
    ∀ fuel page, (crawlAux env m fuel page).pagesVisited ≤ m + 1 - page := by
  intro fuel
  induction fuel with
  | zero => intro page; simp [crawlAux]
  | succ fuel ih =>
    intro page
    by_cases hp : page ≤ m
    · rw [crawlAux_succ env m fuel page hp]
      rcases hc : (pageStep env m page).2 with _ | _
      · have h1 := pageStep_visited env m page
        simp only [hc, Bool.false_eq_true, if_false]
        omega
      · have h1 := pageStep_visited env m page
        have h2 := ih (page + 1)
        simp only [hc, if_true, addStats]
        omega
    · rw [crawlAux_gt env m fuel page hp]
      simp

/-- Once a stopping page lies ahead, the walk cannot visit pages past it. -/
theorem crawlAux_stops_le (env : SearchEnv) (m q : Nat) (hq : stopsAt env q) :
    ∀ fuel page, page ≤ q →
      (crawlAux env m fuel page).pagesVisited ≤ q + 1 - page := by
  intro fuel
  induction fuel with
  | zero => intro page _; simp [crawlAux]
  | succ fuel ih =>
    intro page hpq
    by_cases hp : page ≤ m
    · rw [crawlAux_succ env m fuel page hp]
      rcases hc : (pageStep env m page).2 with _ | _
      · have h1 := pageStep_visited env m page
        simp only [hc, Bool.false_eq_true, if_false]
        omega
      · obtain ⟨e1, e2, -, -, e4, -⟩ := pageStep_cont_inv env m page hc
        have hne : page ≠ q := by
          rintro rfl
          rcases hq with h | h | h
          · exact e1 h
          · exact e2 h
          · rw [e4] at h; cases h
        have h1 := pageStep_visited env m page
        have h2 := ih (page + 1) (by omega)
        simp only [hc, if_true, addStats]
        omega
    · rw [crawlAux_gt env m fuel page hp]
      simp

/-- A page with cards and links whose next-page step fails contributes its
extracted records and stops the walk. -/
theorem pageStep_stop (env : SearchEnv) (m page : Nat)
    (hc : selectCards (env.pages page) ≠ [])
    (hl : pageLinks (env.pages page) ≠ [])
    (hn : (env.pages page).next.found = false ∨ (env.pages page).next.waitOk = false) :
    pageStep env m page =
      (⟨(processLinks env (pageLinks (env.pages page))).records, 1,
        (pageLinks (env.pages page)).length,
        (processLinks env (pageLinks (env.pages page))).failures⟩, false) := by
  have hc' : (selectCards (env.pages page)).isEmpty = false := by
    simpa [List.isEmpty_iff] using hc
  have hl' : ((extractLinks (selectCards (env.pages page))).dedup).isEmpty = false := by
    simpa [pageLinks, List.isEmpty_iff] using hl
  by_cases h3 : (processLinks env ((extractLinks (selectCards (env.pages page))).dedup)).aborted
  · simp [pageStep, hc', hl', h3, pageLinks]
  · rcases hn with h | h <;> simp [pageStep, hc', hl', h3, pageLinks, h]

/-- Per-property loop: a link whose extraction returns `None` is counted
and skipped, leaving the records of the remaining links unchanged. -/
theorem processLinks_skip (env : SearchEnv) (u : String) (rest : List String)
    (snaps : List String)
    (h : scrape_property_page (env.detail u) u env.ts = Except.ok (Option.none, snaps)) :
    processLinks env (u :: rest) =
      ⟨(processLinks env rest).records, (processLinks env rest).failures + 1,
        (processLinks env rest).aborted⟩ := by
  simp [processLinks, h]

/-- Per-property loop: a link whose extraction raises aborts the page. -/
theorem processLinks_abort (env : SearchEnv) (u : String) (rest : List String)
    (h : scrape_property_page (env.detail u) u env.ts = Except.error ()) :
    processLinks env (u :: rest) = ⟨[], 0, true⟩ := by
  simp [processLinks, h]

/-- Inversion of a non-failing `pyDescription`. -/
theorem pyDescription_some (v : PyVal) (d : String)
    (h : pyDescription v = some d) :
    ∃ s, v = PyVal.str s ∧ d = String.mk (collapseLF (s.data.take 500)) ++ "..." := by
  cases v <;> simp [pyDescription] at h
  case str s => exact ⟨s, rfl, h.symm⟩

/-- The collapse of newlines never leaves a newline. -/
theorem collapseLF_no_lf (l : List Char) (c : Char) (h : c ∈ collapseLF l) :
    c ≠ '\n' := by
  obtain ⟨a, -, rfl⟩ := List.mem_map.mp h
  by_cases ha : a = '\n' <;> simp [ha]

theorem collapseLF_length (l : List Char) : (collapseLF l).length = l.length := by
  simp [collapseLF]

theorem strData_append (a b : String) : (a ++ b).data = a.data ++ b.data := rfl

/-! ### Absent-key value lemmas -/

theorem priceOf_absent (kvs : List (String × PyVal))
    (hk : kvs.lookup "price" = Option.none) :
    priceOf (.dict kvs) = some (PyVal.str "", PyVal.str "COP") := by
  rw [priceOf_dict_def, lookupD_of_absent _ _ _ hk]
  rfl

theorem locationFieldsOf_absent (kvs : List (String × PyVal))
    (hk : kvs.lookup "location" = Option.none) :
    locationFieldsOf (.dict kvs) = some (PyVal.str "", PyVal.str "", PyVal.str "") := by
  rw [locationFieldsOf_dict_def, lookupD_of_absent _ _ _ hk]
  rfl

theorem brokerFieldsOf_absent (kvs : List (String × PyVal))
    (hk : kvs.lookup "broker" = Option.none) :
    brokerFieldsOf (.dict kvs) = some (PyVal.str "", PyVal.str "") := by
  rw [brokerFieldsOf_dict_def, lookupD_of_absent _ _ _ hk]
  rfl

theorem imagesStrOf_absent (kvs : List (String × PyVal))
    (hk : kvs.lookup "images" = Option.none) :
    imagesStrOf (.dict kvs) = some "" := by
  rw [imagesStrOf_dict_def, lookupD_of_absent _ _ _ hk]
  rfl

theorem descriptionOf_absent (kvs : List (String × PyVal))
    (hk : kvs.lookup "description" = Option.none) :
    descriptionOf (.dict kvs) = some "..." := by
  rw [descriptionOf_dict, lookupD_of_absent _ _ _ hk]
  rfl

theorem featuresOf_absent (kvs : List (String × PyVal))
    (hk : kvs.lookup "features" = Option.none) :
    featuresOf (.dict kvs) = some "" := by
  rw [featuresOf_dict, lookupD_of_absent _ _ _ hk]
  rfl

/-! ### Claims -/

/-- Claim C1, amended.  The per-property `try` block (lines 70-129)
contains every exception raised after navigation: extraction then always
returns a value (never raises), a failed extraction carries a debug
snapshot, and in the page loop a failed link is counted and skipped while
the remaining links are still processed.  However, `driver.get(url)` at
line 68 runs before the `try`: an exception raised during navigation to
the URL escapes `scrape_property_page`, is caught only by the page-level
handler (lines 276-279), and aborts the processing of the remaining links
of that page and the rest of the crawl (the records accumulated so far
are still returned). -/
theorem C1_failure_containment (env : SearchEnv) (pg : DetailPage)
    (url ts u : String) (rest : List String) (snaps : List String) :
    (pg.navOk = true → scrape_property_page pg url ts = Except.ok (scrapeAfterNav pg url ts)) ∧
    ((scrapeAfterNav pg url ts).1 = Option.none → (scrapeAfterNav pg url ts).2 ≠ []) ∧
    (scrape_property_page (env.detail u) u env.ts = Except.ok (Option.none, snaps) →
      processLinks env (u :: rest) =
        ⟨(processLinks env rest).records, (processLinks env rest).failures + 1,
          (processLinks env rest).aborted⟩) ∧
    (scrape_property_page (env.detail u) u env.ts = Except.error () →
      processLinks env (u :: rest) = ⟨[], 0, true⟩) := by
  refine ⟨?_, ?_, ?_, ?_⟩
  · intro hn
    simp [scrape_property_page, hn]
  · intro hfst
    rcases scrapeAfterNav_fail_snapshot pg url ts hfst with h | h <;> simp [h]
  · intro h
    exact processLinks_skip env u rest snaps h
  · intro h
    exact processLinks_abort env u rest h

/-- Claim C1 witness: concrete instances of the containment statement. -/
theorem C1_witness :
    (scrape_property_page (envB.detail urlB) urlB envB.ts =
        Except.ok (Option.none, ["property_error"])) ∧
    processLinks envB [urlB, urlA] =
      ⟨(processLinks envB [urlA]).records, (processLinks envB [urlA]).failures + 1,
        (processLinks envB [urlA]).aborted⟩ :=
  ⟨rfl, ((C1_failure_containment envB goodDetail urlB tsW urlB [urlA]
      ["property_error"]).2.2.1) rfl⟩

/-- Claim C1 counterexample: with the first link's navigation raising
(line 68 is outside the `try`), the whole page's per-property loop aborts:
the second link, which in isolation extracts a record, is never processed
and contributes nothing, so an exception raised while extracting a
property (during navigation to the URL) does propagate and abort the
processing of the remaining links. -/
theorem C1_counterexample :
    processLinks envNav [urlA, urlB] = ⟨[], 0, true⟩ ∧
    (∃ r, scrape_property_page (envNav.detail urlB) urlB envNav.ts =
        Except.ok (some r, [])) ∧
    (∃ r, processLinks envNav [urlB] = ⟨[r], 0, false⟩) :=
  ⟨rfl, ⟨_, rfl⟩, ⟨_, rfl⟩⟩

/-- Claim C2.  For every run, the pagination loop visits at most the
configured page limit `m` (unconditionally); and whenever some page
`q ≥ 1` yields no cards, no valid links, or no next-page control, the
walk additionally stops at or before page `q`. -/
theorem C2_pagination_bounded (env : SearchEnv) (m : Nat) :
    (crawl env m).pagesVisited ≤ m ∧
    (∀ q, 1 ≤ q → stopsAt env q → (crawl env m).pagesVisited ≤ q) := by
  constructor
  · have hA : (crawl env m).pagesVisited ≤ m + 1 - 1 :=
      crawlAux_visited_le env m (m + 1) 1
    omega
  · intro q h1 h2
    have hB : (crawl env m).pagesVisited ≤ q + 1 - 1 :=
      crawlAux_stops_le env m q h2 (m + 1) 1 h1
    omega

/-- Claim C2 witness: a run whose first page has no next-page control
visits exactly one page out of the limit of three. -/
theorem C2_witness :
    (1 ≤ 1 ∧ stopsAt envA 1) ∧
    ((crawl envA MAX_PAGES).pagesVisited ≤ MAX_PAGES ∧
      (crawl envA MAX_PAGES).pagesVisited ≤ 1) :=
  ⟨⟨le_refl 1, Or.inr (Or.inr rfl)⟩,
    ⟨(C2_pagination_bounded envA MAX_PAGES).1,
      (C2_pagination_bounded envA MAX_PAGES).2 1 (le_refl 1) (Or.inr (Or.inr rfl))⟩⟩

/-- Claim C3.  The three card-detection strategies are tried in the fixed
order data-testid, class-based, generic; the first non-empty result is
used and later strategies are not consulted; all three empty is the only
way discovery reports no cards. -/
theorem C3_strategy_priority (p : SearchPage) :
    (p.cardsTestid ≠ [] → selectCards p = p.cardsTestid) ∧
    (p.cardsTestid = [] → p.cardsClass ≠ [] → selectCards p = p.cardsClass) ∧
    (p.cardsTestid = [] → p.cardsClass = [] → selectCards p = p.cardsGeneric) ∧
    (selectCards p = [] ↔
      p.cardsTestid = [] ∧ p.cardsClass = [] ∧ p.cardsGeneric = []) := by
  obtain ⟨t, c, g, nx⟩ := p
  refine ⟨?_, ?_, ?_, ?_⟩ <;> cases t <;> cases c <;> simp [selectCards]

/-- Claim C3 witness: with the first strategy empty and the second
non-empty, the class-based cards are used. -/
theorem C3_witness :
    (pageClassOnly.cardsTestid = [] ∧ pageClassOnly.cardsClass ≠ []) ∧
    selectCards pageClassOnly = pageClassOnly.cardsClass :=
  ⟨⟨rfl, by decide⟩,
    (C3_strategy_priority pageClassOnly).2.1 rfl (by decide)⟩

/-- Claim C4.  The link list handed to per-property extraction is
duplicate-free and every link in it contains one of the accepted path
patterns. -/
theorem C4_links_unique_accepted (cards : List Card) :
    ((extractLinks cards).dedup).Nodup ∧
    (∀ u, u ∈ (extractLinks cards).dedup → accepted u = true) := by
  refine ⟨List.nodup_dedup _, ?_⟩
  intro u hu
  rw [List.mem_dedup] at hu
  simp only [extractLinks, List.mem_filterMap] at hu
  obtain ⟨c, -, he⟩ := hu
  rcases hh : c.href with _ | h0
  · simp [hh] at he
  · simp only [hh] at he
    by_cases hcond : (!h0.isEmpty && accepted h0) = true
    · rw [if_pos hcond] at he
      obtain rfl : h0 = u := Option.some.inj he
      exact (Bool.and_eq_true _ _ |>.mp hcond).2
    · rw [if_neg hcond] at he
      simp at he

/-- Claim C4 witness: the single discovered link is accepted. -/
theorem C4_witness :
    urlA ∈ (extractLinks [cardA]).dedup ∧ accepted urlA = true :=
  ⟨by decide, (C4_links_unique_accepted [cardA]).2 urlA (by decide)⟩

/-- Claim C5, amended.  For a source description of length at least the cap
of 500, the record's description has length exactly 500 + 3 and contains
no newline (`'\n'`) character.  Line 116 collapses only `'\n'`; carriage
returns and the other line-break characters are not collapsed and may
remain in the field. -/
theorem C5_description_truncation (kvs : List (String × PyVal)) (s : String)
    (url ts : String) (r : PropertyRecord)
    (hk : kvs.lookup "description" = some (PyVal.str s))
    (hlen : 500 ≤ s.length)
    (hb : buildRecord (.dict kvs) url ts = some r) :
    r.description.length = 503 ∧ ∀ c ∈ r.description.data, c ≠ '\n' := by
  obtain ⟨-, -, -, -, -, -, -, -, -, -, -, -, hDesc, -, -, -, -, -⟩ :=
    buildRecord_dict_inv kvs url ts r hb
  rw [lookupD, hk] at hDesc
  simp only [Option.getD_some, pyDescription, Option.some.injEq] at hDesc
  have hdesc2 : r.description = String.mk (collapseLF (s.data.take 500)) ++ "..." :=
    hDesc.symm
  constructor
  · rw [hdesc2, String.length_append]
    have h1 : (String.mk (collapseLF (s.data.take 500))).length =
        (collapseLF (s.data.take 500)).length := rfl
    rw [h1, collapseLF_length, List.length_take]
    have h2 : s.data.length = s.length := rfl
    have h3 : ("..." : String).length = 3 := rfl
    rw [h3]
    omega
  · intro c hc
    rw [hdesc2, strData_append] at hc
    rcases List.mem_append.mp hc with h | h
    · exact collapseLF_no_lf _ c h
    · have : ("..." : String).data = ['.', '.', '.'] := rfl
      rw [this] at h
      simp only [List.mem_cons, List.not_mem_nil, or_false] at h
      rcases h with rfl | rfl | rfl <;> decide

/-- Claim C5 witness: a 500-character description of letters yields a
503-character single-line field. -/
theorem C5_witness :
    ∃ r, ([("description", PyVal.str (String.mk (List.replicate 500 'a')))].lookup
        "description" = some (PyVal.str (String.mk (List.replicate 500 'a'))) ∧
      500 ≤ (String.mk (List.replicate 500 'a')).length ∧
      buildRecord (PyVal.dict [("description",
        PyVal.str (String.mk (List.replicate 500 'a')))]) "u" "t" = some r) ∧
      (r.description.length = 503 ∧ ∀ c ∈ r.description.data, c ≠ '\n') :=
  ⟨_, ⟨rfl, by decide, rfl⟩,
    C5_description_truncation
      [("description", PyVal.str (String.mk (List.replicate 500 'a')))]
      (String.mk (List.replicate 500 'a')) "u" "t" _ rfl (by decide) rfl⟩

/-- Claim C5 counterexample: a 500-character description consisting of
carriage returns.  The record's description keeps all 500 carriage returns
(only `'\n'` is collapsed at line 116), so the claim that the field
contains no embedded line-break characters fails, while the length clause
holds. -/
theorem C5_counterexample :
    ∃ r, buildRecord (PyVal.dict [("description",
        PyVal.str (String.mk (List.replicate 500 '\x0d')))]) "u" "t" = some r ∧
      500 ≤ (String.mk (List.replicate 500 '\x0d')).length ∧
      r.description.length = 503 ∧
      '\x0d' ∈ r.description.data ∧ isLineBreak '\x0d' = true := by
  refine ⟨_, rfl, by decide, by decide, by decide, by decide⟩

/-- Claim C6.  When the nested listing yields a record, each field whose
source key is omitted resolves to its explicit default; and a listing
carrying none of the declared keys still yields a record (an omitted key
never makes extraction fail). -/
theorem C6_field_defaults (kvs : List (String × PyVal)) (url ts : String)
    (r : PropertyRecord) (hb : buildRecord (.dict kvs) url ts = some r) :
    r.url = url ∧ r.scraped_at = ts ∧
    (kvs.lookup "title" = Option.none → r.title = .str "") ∧
    (kvs.lookup "price" = Option.none → r.price = .str "" ∧ r.currency = .str "COP") ∧
    (kvs.lookup "location" = Option.none →
      r.location = .str "" ∧ r.neighborhood = .str "" ∧ r.city = .str "") ∧
    (kvs.lookup "propertyType" = Option.none → r.property_type = .str "") ∧
    (kvs.lookup "area" = Option.none → r.area = .str "") ∧
    (kvs.lookup "rooms" = Option.none → r.rooms = .str "") ∧
    (kvs.lookup "bathrooms" = Option.none → r.bathrooms = .str "") ∧
    (kvs.lookup "parking" = Option.none → r.parking = .str "") ∧
    (kvs.lookup "stratum" = Option.none → r.stratum = .str "") ∧
    (kvs.lookup "status" = Option.none → r.status = .str "") ∧
    (kvs.lookup "description" = Option.none → r.description = "...") ∧
    (kvs.lookup "features" = Option.none → r.features = "") ∧
    (kvs.lookup "broker" = Option.none →
      r.broker = .str "" ∧ r.broker_phone = .str "") ∧
    (kvs.lookup "images" = Option.none → r.images = "") ∧
    (kvs.lookup "virtualTourUrl" = Option.none → r.virtual_tour = .str "") ∧
    (kvs.lookup "id" = Option.none → r.property_id = .str "") ∧
    (∀ kvs2 : List (String × PyVal),
      (∀ k ∈ ["title", "price", "location", "propertyType", "area", "rooms",
        "bathrooms", "parking", "stratum", "status", "description", "features",
        "broker", "images", "virtualTourUrl", "id"],
        kvs2.lookup k = Option.none) →
      (buildRecord (.dict kvs2) url ts).isSome = true) := by
  obtain ⟨hu, hts, ht, hpt, har, hro, hba, hpa, hst, hsa, hvt, hid,
      hDesc, hFeat, hPc, hLf, hBf, hImg⟩ := buildRecord_dict_inv kvs url ts r hb
  refine ⟨hu, hts, ?_, ?_, ?_, ?_, ?_, ?_, ?_, ?_, ?_, ?_, ?_, ?_, ?_, ?_, ?_, ?_, ?_⟩
  · intro hk; rw [ht, lookupD_of_absent _ _ _ hk]
  · intro hk
    rw [priceOf_absent kvs hk] at hPc
    have h := Option.some.inj hPc
    exact ⟨(congrArg Prod.fst h).symm, (congrArg Prod.snd h).symm⟩
  · intro hk
    rw [locationFieldsOf_absent kvs hk] at hLf
    have h := Option.some.inj hLf
    exact ⟨(congrArg Prod.fst h).symm, (congrArg (fun x => x.2.1) h).symm,
      (congrArg (fun x => x.2.2) h).symm⟩
  · intro hk; rw [hpt, lookupD_of_absent _ _ _ hk]
  · intro hk; rw [har, lookupD_of_absent _ _ _ hk]
  · intro hk; rw [hro, lookupD_of_absent _ _ _ hk]
  · intro hk; rw [hba, lookupD_of_absent _ _ _ hk]
  · intro hk; rw [hpa, lookupD_of_absent _ _ _ hk]
  · intro hk; rw [hst, lookupD_of_absent _ _ _ hk]
  · intro hk; rw [hsa, lookupD_of_absent _ _ _ hk]
  · intro hk
    rw [lookupD_of_absent _ _ _ hk] at hDesc
    have h : pyDescription (PyVal.str "") = some "..." := rfl
    rw [h] at hDesc
    exact (Option.some.inj hDesc).symm
  · intro hk
    rw [lookupD_of_absent _ _ _ hk] at hFeat
    have h : pyJoin ", " (PyVal.list []) = some "" := rfl
    rw [h] at hFeat
    exact (Option.some.inj hFeat).symm
  · intro hk
    rw [brokerFieldsOf_absent kvs hk] at hBf
    have h := Option.some.inj hBf
    exact ⟨(congrArg Prod.fst h).symm, (congrArg Prod.snd h).symm⟩
  · intro hk
    rw [imagesStrOf_absent kvs hk] at hImg
    exact (Option.some.inj hImg).symm
  · intro hk; rw [hvt, lookupD_of_absent _ _ _ hk]
  · intro hk; rw [hid, lookupD_of_absent _ _ _ hk]
  · intro kvs2 hk
    have k1 := hk "title" (by simp)
    have k2 := hk "price" (by simp)
    have k3 := hk "location" (by simp)
    have k4 := hk "propertyType" (by simp)
    have k5 := hk "area" (by simp)
    have k6 := hk "rooms" (by simp)
    have k7 := hk "bathrooms" (by simp)
    have k8 := hk "parking" (by simp)
    have k9 := hk "stratum" (by simp)
    have k10 := hk "status" (by simp)
    have k11 := hk "description" (by simp)
    have k12 := hk "features" (by simp)
    have k13 := hk "broker" (by simp)
    have k14 := hk "images" (by simp)
    rw [buildRecord_def, imagesStrOf_absent kvs2 k14, priceOf_absent kvs2 k2,
      locationFieldsOf_absent kvs2 k3, plainFieldsOf_dict,
      descriptionOf_absent kvs2 k11, featuresOf_absent kvs2 k12,
      brokerFieldsOf_absent kvs2 k13, tailFieldsOf_dict]
    rfl

/-- Claim C6 witness: a listing with only an undeclared key yields a
record whose fields all carry their defaults. -/
theorem C6_witness :
    ∃ r, buildRecord (PyVal.dict [("x", PyVal.int 1)]) "u" "t" = some r ∧
      [("x", PyVal.int 1)].lookup "title" = Option.none ∧
      r.title = PyVal.str "" :=
  ⟨_, rfl, rfl,
    (C6_field_defaults [("x", PyVal.int 1)] "u" "t" _ rfl).2.2.1 rfl⟩

/-- Claim C7, amended.  A payload whose text fails to parse as JSON raises
inside the `try` and is converted into the generic per-item failure with a
`property_error` snapshot (lines 126-129) — not the `no listing data`
failure; only an absent or empty nested listing object yields the
`no listing data` failure with its `no_listing_data` snapshot (lines
90-93).  In both cases no record is returned and nothing is appended to
the page's result list. -/
theorem C7_missing_payload (pg : DetailPage) (url ts : String)
    (j listing : PyVal) (env : SearchEnv) (u : String) :
    (pg.navOk = true → pg.pageReady = true → pg.hasNextData = true →
      pg.payload = Option.none →
      scrape_property_page pg url ts = Except.ok (Option.none, ["property_error"])) ∧
    (pg.navOk = true → pg.pageReady = true → pg.hasNextData = true →
      pg.payload = some j → listingOf j = some listing → listing.truthy = false →
      scrape_property_page pg url ts = Except.ok (Option.none, ["no_listing_data"])) ∧
    (∀ snaps, scrape_property_page (env.detail u) u env.ts = Except.ok (Option.none, snaps) →
      (processLinks env [u]).records = []) := by
  refine ⟨?_, ?_, ?_⟩
  · intro hn h1 hh hp
    simp [scrape_property_page, scrapeAfterNav, hn, h1, hh, hp]
  · intro hn h1 hh hp hl ht
    simp [scrape_property_page, scrapeAfterNav, hn, h1, hh, hp, hl, ht]
  · intro snaps h
    simp [processLinks, h]

/-- Claim C7 witness: an empty nested listing object yields the
`no listing data` failure, and such a failed URL contributes no record. -/
theorem C7_witness :
    (scrape_property_page ⟨true, true, true, some (PyVal.dict [("props",
        PyVal.dict [("pageProps", PyVal.dict [("listing", PyVal.dict [])])])])⟩
        urlA tsW = Except.ok (Option.none, ["no_listing_data"])) ∧
    (processLinks envB [urlB]).records = [] :=
  ⟨(C7_missing_payload ⟨true, true, true, some (PyVal.dict [("props",
      PyVal.dict [("pageProps", PyVal.dict [("listing", PyVal.dict [])])])])⟩
      urlA tsW (PyVal.dict [("props",
      PyVal.dict [("pageProps", PyVal.dict [("listing", PyVal.dict [])])])])
      (PyVal.dict []) envB urlB).2.1 rfl rfl rfl rfl rfl rfl,
    (C7_missing_payload ⟨true, true, true, Option.none⟩ urlA tsW
      (PyVal.dict []) (PyVal.dict []) envB urlB).2.2 ["property_error"] rfl⟩

/-- Claim C7 counterexample: a payload that fails to parse as JSON is
converted into the generic failure with a `property_error` snapshot, not
the `no listing data` failure claimed. -/
theorem C7_counterexample :
    scrape_property_page badParseDetail urlA tsW =
      Except.ok (Option.none, ["property_error"]) ∧
    ["property_error"] ≠ ["no_listing_data"] :=
  ⟨rfl, by decide⟩

/-- Claim C8.  When, after a page's links were extracted, no next-page
control is found (or clicking/waiting fails), the iteration stops the walk
(`pagesVisited` contribution is 1, nothing further is visited) and the
records extracted from that page's links are still returned — the failure
is not an error and partial results are not discarded. -/
theorem C8_next_page_failure (env : SearchEnv) (m fuel page : Nat)
    (hp : page ≤ m)
    (hc : selectCards (env.pages page) ≠ [])
    (hl : pageLinks (env.pages page) ≠ [])
    (hn : (env.pages page).next.found = false ∨ (env.pages page).next.waitOk = false) :
    (crawlAux env m (fuel + 1) page).records =
      (processLinks env (pageLinks (env.pages page))).records ∧
    (crawlAux env m (fuel + 1) page).pagesVisited = 1 := by
  rw [crawlAux_succ env m fuel page hp, pageStep_stop env m page hc hl hn]
  simp

/-- Claim C8 witness: one page with one extractable link and no next-page
control returns that page's record and stops. -/
theorem C8_witness :
    (1 ≤ MAX_PAGES ∧ selectCards (envA.pages 1) ≠ [] ∧
      pageLinks (envA.pages 1) ≠ [] ∧ (envA.pages 1).next.found = false) ∧
    ((crawlAux envA MAX_PAGES (3 + 1) 1).records =
        (processLinks envA (pageLinks (envA.pages 1))).records ∧
      (crawlAux envA MAX_PAGES (3 + 1) 1).pagesVisited = 1) :=
  ⟨⟨by decide, by decide, by decide, rfl⟩,
    C8_next_page_failure envA MAX_PAGES 3 1 (by decide) (by decide) (by decide)
      (Or.inl rfl)⟩

/-- Claim C9, amended.  `main` writes exactly the accumulated records and
its final status line depends only on those records: two runs with the
same accumulated records (here: one failure-free, one with an extraction
failure) produce identical outputs, so the output carries the number of
records saved but no summary of pages visited, links discovered, or
extraction failures. -/
theorem C9_run_output (env e1 e2 : SearchEnv)
    (h : scrape_search_results e1 = scrape_search_results e2) :
    (main env).csvRows = scrape_search_results env ∧
    (main env).finalMessage =
      (if (scrape_search_results env).isEmpty then "No data scraped"
       else "Success! Saved " ++ toString (scrape_search_results env).length ++
         " properties to " ++ OUTPUT_FILE) ∧
    main e1 = main e2 := by
  refine ⟨?_, ?_, ?_⟩
  · by_cases he : (scrape_search_results env).isEmpty
    · simp only [main, he, if_true]
      exact (List.isEmpty_iff.mp he).symm
    · simp [main, he]
  · by_cases he : (scrape_search_results env).isEmpty <;> simp [main, he]
  · simp only [main]
    rw [h]

/-- Claim C9 witness: `envA` and `envB` accumulate the same records, so
`main` gives the same output on both. -/
theorem C9_witness :
    scrape_search_results envA = scrape_search_results envB ∧
    ((main envA).csvRows = scrape_search_results envA ∧
      (main envA).finalMessage =
        (if (scrape_search_results envA).isEmpty then "No data scraped"
         else "Success! Saved " ++ toString (scrape_search_results envA).length ++
           " properties to " ++ OUTPUT_FILE) ∧
      main envA = main envB) :=
  ⟨rfl, C9_run_output envA envA envB rfl⟩

/-- Claim C9 counterexample: `envA` (one link, no failures) and `envB`
(two links discovered, one extraction failure) produce identical `main`
outputs, although their pages-visited/links-discovered/records-extracted/
failure counts differ — so the run's result cannot report those counts:
no summary is returned. -/
theorem C9_counterexample :
    main envA = main envB ∧
    ¬((crawl envA MAX_PAGES).pagesVisited = (crawl envB MAX_PAGES).pagesVisited ∧
      (crawl envA MAX_PAGES).linksDiscovered = (crawl envB MAX_PAGES).linksDiscovered ∧
      (crawl envA MAX_PAGES).failures = (crawl envB MAX_PAGES).failures) := by
  constructor
  · rfl
  · intro h
    exact absurd h.2.2 (by decide)

/-- Claim C10.  Every successfully extracted record's description field
ends with the three-character ellipsis: with the source description absent
the field is exactly `"..."`, and with a string description it is the
newline-collapsed 500-character prefix followed by `"..."` — the suffix is
appended unconditionally at line 116. -/
theorem C10_description_suffix (pg : DetailPage) (url ts : String)
    (r : PropertyRecord) (snaps : List String)
    (h : scrape_property_page pg url ts = Except.ok (some r, snaps)) :
    (∃ t, r.description = t ++ "...") ∧
    (∀ (kvs2 : List (String × PyVal)) (url2 ts2 : String) (r2 : PropertyRecord),
      buildRecord (PyVal.dict kvs2) url2 ts2 = some r2 →
      (kvs2.lookup "description" = Option.none → r2.description = "...") ∧
      (∀ s2, kvs2.lookup "description" = some (PyVal.str s2) →
        r2.description = String.mk (collapseLF (s2.data.take 500)) ++ "...")) := by
  constructor
  · obtain ⟨-, j, listing, -, -, -, hb, -⟩ := scrape_ok_record_inv pg url ts r snaps h
    obtain ⟨kvs, rfl⟩ := buildRecord_some_dict listing url ts r hb
    obtain ⟨-, -, -, -, -, -, -, -, -, -, -, -, hDesc, -, -, -, -, -⟩ :=
      buildRecord_dict_inv kvs url ts r hb
    obtain ⟨s, -, hd⟩ := pyDescription_some _ _ hDesc
    exact ⟨String.mk (collapseLF (s.data.take 500)), hd⟩
  · intro kvs2 url2 ts2 r2 hb2
    obtain ⟨-, -, -, -, -, -, -, -, -, -, -, -, hDesc, -, -, -, -, -⟩ :=
      buildRecord_dict_inv kvs2 url2 ts2 r2 hb2
    constructor
    · intro hk
      rw [lookupD_of_absent _ _ _ hk] at hDesc
      have he : pyDescription (PyVal.str "") = some "..." := rfl
      rw [he] at hDesc
      exact (Option.some.inj hDesc).symm
    · intro s2 hk
      rw [lookupD, hk] at hDesc
      simp only [Option.getD_some, pyDescription, Option.some.injEq] at hDesc
      exact hDesc.symm

/-- Claim C10 witness: a successful extraction whose description ends in
the ellipsis, and an absent description yielding exactly `"..."`. -/
theorem C10_witness :
    ∃ r, scrape_property_page goodDetail urlA tsW = Except.ok (some r, []) ∧
      (∃ t, r.description = t ++ "...") ∧ r.description = "..." := by
  refine ⟨_, rfl, ?_, ?_⟩
  · exact (C10_description_suffix goodDetail urlA tsW _ [] rfl).1
  · exact ((C10_description_suffix goodDetail urlA tsW _ [] rfl).2
      [("title", PyVal.str "Casa"), ("price", PyVal.dict [("value", PyVal.int 100)])]
      urlA tsW _ rfl).1 rfl

end Scraper
